import Mathlib

/-!
Verification development for the `django-api` repository: a shallow
embedding, in Lean 4, of the request/response validation decorators
(`src/django_api/decorators.py`) and the JSON response hierarchy
(`src/django_api/json.py`), together with theorems settling the spec's
claims about them.

Conventions of the embedding:
* Python values relevant to this code are modelled by the inductive
  `PyVal`; JSON documents by `Jv`.
* The host framework (Django) and the JSON library are external
  collaborators (spec section 6).  Their interfaces are modelled
  minimally: `runForm` models the form-validation engine as "each
  declared field cleans its raw value"; `parseJsonString` models
  `simplejson.loads` restricted to string documents; the `loads`
  argument of `validate_json_request` abstracts `simplejson.loads`
  on request bodies.
* An uncaught Python exception is a distinguished outcome, never a value.
* Logging (`logger.warn`) is a side effect with no observable influence
  on results; it is not modelled.
-/

/-- Dates as in Python's `datetime.date` (year, month, day). -/
structure PyDate where
  year : Nat
  month : Nat
  day : Nat
deriving DecidableEq, Repr

/-- Datetimes as in Python's `datetime.datetime`. -/
structure PyDatetime where
  year : Nat
  month : Nat
  day : Nat
  hour : Nat
  minute : Nat
  second : Nat
  microsecond : Nat
deriving DecidableEq, Repr

/-- Python runtime values as far as this codebase inspects them:
the natively JSON-serializable kinds (`none`, `bool`, `int`, `float`,
`str`, `list`, `dict` with string keys), the four kinds the encoder
handles specially (`date`, `datetime`, `decimal`, `queryset`), and an
opaque non-serializable `object` (identified by a tag so that distinct
unhandled objects exist). Floats and decimals are carried as rationals. -/
inductive PyVal where
  | none : PyVal
  | bool (b : Bool) : PyVal
  | int (n : Int) : PyVal
  | float (q : ℚ) : PyVal
  | str (s : String) : PyVal
  | list (xs : List PyVal) : PyVal
  | dict (kvs : List (String × PyVal)) : PyVal
  | date (d : PyDate) : PyVal
  | datetime (dt : PyDatetime) : PyVal
  | decimal (q : ℚ) : PyVal
  | queryset (xs : List PyVal) : PyVal
  | object (tag : Nat) : PyVal

/-- JSON documents. -/
inductive Jv where
  | null : Jv
  | bool (b : Bool) : Jv
  | num (q : ℚ) : Jv
  | str (s : String) : Jv
  | arr (xs : List Jv) : Jv
  | obj (kvs : List (String × Jv)) : Jv

/-- Zero-padded two-digit decimal rendering (Python `%02d` for values
below 100, as guaranteed for month/day/hour/minute/second). -/
def pad2 (n : Nat) : List Char :=
  [Nat.digitChar (n / 10 % 10), Nat.digitChar (n % 10)]

/-- Zero-padded four-digit decimal rendering (Python `%04d` for values
below 10000, as guaranteed for `datetime` years). -/
def pad4 (n : Nat) : List Char :=
  [Nat.digitChar (n / 1000 % 10), Nat.digitChar (n / 100 % 10),
   Nat.digitChar (n / 10 % 10), Nat.digitChar (n % 10)]

/-- Zero-padded six-digit decimal rendering (Python `%06d` for
microseconds). -/
def pad6 (n : Nat) : List Char :=
  [Nat.digitChar (n / 100000 % 10), Nat.digitChar (n / 10000 % 10),
   Nat.digitChar (n / 1000 % 10), Nat.digitChar (n / 100 % 10),
   Nat.digitChar (n / 10 % 10), Nat.digitChar (n % 10)]

/-- `date.isoformat()`: `YYYY-MM-DD`. -/
def PyDate.isoformat (d : PyDate) : String :=
  ⟨pad4 d.year ++ '-' :: pad2 d.month ++ '-' :: pad2 d.day⟩

/-- `datetime.isoformat()`: `YYYY-MM-DDTHH:MM:SS[.ffffff]`, the
fractional part present exactly when the microsecond field is nonzero. -/
def PyDatetime.isoformat (dt : PyDatetime) : String :=
  ⟨pad4 dt.year ++ '-' :: pad2 dt.month ++ '-' :: pad2 dt.day ++
   'T' :: pad2 dt.hour ++ ':' :: pad2 dt.minute ++ ':' :: pad2 dt.second ++
   (if dt.microsecond ≠ 0 then '.' :: pad6 dt.microsecond else [])⟩

/-- `JsonEncoder.default` (json.py lines 13-27).  The `JSONEncoder`
interface allows `default` to raise `TypeError` (the base class always
does), which we model as `Option.none`; this override never raises:
dates and datetimes become their ISO strings, decimals become floats,
querysets become lists, and everything else becomes Python `None`. -/
def JsonEncoder.default : PyVal → Option PyVal
  | PyVal.datetime dt => some (PyVal.str dt.isoformat)
  | PyVal.date d => some (PyVal.str d.isoformat)
  | PyVal.decimal q => some (PyVal.float q)
  | PyVal.queryset xs => some (PyVal.list xs)
  | _ => some PyVal.none

mutual
/-- The composed JSON encoding `JsonEncoder(...).encode`: natively
serializable values are encoded structurally; for the rest the library
calls `default` and re-encodes its result, which is inlined here
(dates/datetimes → ISO string, decimal → float, queryset → list,
anything else → `None` → `null`). -/
def encodePy : PyVal → Jv
  | PyVal.none => Jv.null
  | PyVal.bool b => Jv.bool b
  | PyVal.int n => Jv.num (n : ℚ)
  | PyVal.float q => Jv.num q
  | PyVal.str s => Jv.str s
  | PyVal.list xs => Jv.arr (encodePyList xs)
  | PyVal.dict kvs => Jv.obj (encodePyDict kvs)
  | PyVal.date d => Jv.str d.isoformat
  | PyVal.datetime dt => Jv.str dt.isoformat
  | PyVal.decimal q => Jv.num q
  | PyVal.queryset xs => Jv.arr (encodePyList xs)
  | PyVal.object _ => Jv.null

def encodePyList : List PyVal → List Jv
  | [] => []
  | x :: xs => encodePy x :: encodePyList xs

def encodePyDict : List (String × PyVal) → List (String × Jv)
  | [] => []
  | (k, v) :: kvs => (k, encodePy v) :: encodePyDict kvs
end

/-- A character of a JSON string literal that is emitted verbatim:
not a quote, not a backslash, not a control character. -/
def plainChar (c : Char) : Bool :=
  c ≠ '"' && c ≠ '\\' && decide (32 ≤ c.toNat)

/-- Hexadecimal digit characters, for `\unnnn` escapes. -/
def hexDigitChar (n : Nat) : Char :=
  if n < 10 then Nat.digitChar n
  else if n = 10 then 'a' else if n = 11 then 'b' else if n = 12 then 'c'
  else if n = 13 then 'd' else if n = 14 then 'e' else 'f'

/-- JSON escaping of one character. -/
def escapeChar (c : Char) : List Char :=
  if c = '"' then ['\\', '"']
  else if c = '\\' then ['\\', '\\']
  else if c.toNat < 32 then
    '\\' :: 'u' :: '0' :: '0' ::
      [hexDigitChar (c.toNat / 16 % 16), hexDigitChar (c.toNat % 16)]
  else [c]

/-- JSON escaping of a character list. -/
def escapeList : List Char → List Char
  | [] => []
  | c :: cs => escapeChar c ++ escapeList cs

/-- Rendering of a JSON string literal. -/
def renderString (s : String) : String :=
  ⟨'"' :: escapeList s.data ++ ['"']⟩

/-- Rendering of a rational as a JSON number.  Python renders floats by
shortest round-trip `repr`, a library detail no claim depends on; this
stand-in prints integers exactly and other rationals with six fractional
digits. -/
def renderNum (q : ℚ) : String :=
  if q.den = 1 then toString q.num
  else
    let sign := if q < 0 then "-" else ""
    let scaled := q.num.natAbs * 1000000 / q.den
    sign ++ toString (scaled / 1000000) ++ "." ++ ⟨pad6 (scaled % 1000000)⟩

mutual
/-- Rendering of a JSON document with the compact separators
`(',', ':')` that `JsonResponse.set_content` configures. -/
def renderJv : Jv → String
  | Jv.null => "null"
  | Jv.bool true => "true"
  | Jv.bool false => "false"
  | Jv.num q => renderNum q
  | Jv.str s => renderString s
  | Jv.arr xs => "[" ++ renderJvList xs ++ "]"
  | Jv.obj kvs => "\x7b" ++ renderJvObj kvs ++ "\x7d"

def renderJvList : List Jv → String
  | [] => ""
  | [x] => renderJv x
  | x :: y :: xs => renderJv x ++ "," ++ renderJvList (y :: xs)

def renderJvObj : List (String × Jv) → String
  | [] => ""
  | [(k, v)] => renderString k ++ ":" ++ renderJv v
  | (k, v) :: p :: kvs =>
      renderString k ++ ":" ++ renderJv v ++ "," ++ renderJvObj (p :: kvs)
end

/-- Reversal of a single-character JSON escape. -/
def unescapeChar (c : Char) : Option Char :=
  if c = '"' then some '"'
  else if c = '\\' then some '\\'
  else if c = '/' then some '/'
  else if c = 'n' then some '\n'
  else if c = 't' then some '\t'
  else if c = 'r' then some '\r'
  else none

/-- Scanning the contents of a JSON string literal: `acc` holds the
characters read so far (reversed); the scan stops at the closing quote,
returning the decoded string and the remaining input.  `\unnnn` escapes
are not decoded (the documents this development parses never use them). -/
def scanStringLit (acc : List Char) : List Char → Option (String × List Char)
  | [] => Option.none
  | c :: rest =>
    if c = '"' then some (⟨acc.reverse⟩, rest)
    else if c = '\\' then
      match rest with
      | [] => Option.none
      | e :: rest' =>
        match unescapeChar e with
        | some d => scanStringLit (d :: acc) rest'
        | Option.none => Option.none
    else if c.toNat < 32 then Option.none
    else scanStringLit (c :: acc) rest

/-- Model of `simplejson.loads` restricted to JSON documents that are a
single string literal (the shape produced by encoding a date or
datetime): parses `"…"` and returns the contained string. -/
def parseJsonString (s : String) : Option String :=
  match s.data with
  | c :: rest =>
    if c = '"' then
      match scanStringLit [] rest with
      | some (out, []) => some out
      | _ => Option.none
    else Option.none
  | [] => Option.none

/-- Python truthiness for the values this code tests with `or` and
`if`: `None`, `False`, zero, the empty string and empty collections are
falsy. -/
def pyTruthy : PyVal → Bool
  | PyVal.none => false
  | PyVal.bool b => b
  | PyVal.int n => n ≠ 0
  | PyVal.float q => q ≠ 0
  | PyVal.str s => s ≠ ""
  | PyVal.list xs => ¬ xs.isEmpty
  | PyVal.dict kvs => ¬ kvs.isEmpty
  | PyVal.queryset xs => ¬ xs.isEmpty
  | _ => true

/-- Python `int(s)` on a string: optional sign followed by at least one
decimal digit (leading/trailing whitespace left out of the model);
`Option.none` models the `ValueError` raised otherwise. -/
def pyInt (s : String) : Option Int :=
  let digits : List Char → Option Nat := fun cs =>
    if cs.isEmpty then Option.none
    else if cs.all (·.isDigit) then
      some (cs.foldl (fun a c => a * 10 + (c.toNat - '0'.toNat)) 0)
    else Option.none
  match s.data with
  | '-' :: cs => (digits cs).map (fun n => -(n : Int))
  | '+' :: cs => (digits cs).map (fun n => (n : Int))
  | cs => (digits cs).map (fun n => (n : Int))

/-- Lookup in an association list with string keys, leftmost binding
(Python dict access `d[k]` / `d.get(k)`). -/
def lookupStr {α : Type} (kvs : List (String × α)) (k : String) : Option α :=
  match kvs with
  | [] => Option.none
  | (k', v) :: rest => if k' = k then some v else lookupStr rest k

/-- Python dict membership `k in d`. -/
def hasKeyStr {α : Type} (kvs : List (String × α)) (k : String) : Bool :=
  (lookupStr kvs k).isSome

/-- Python dict assignment `d[k] = v`: replaces the binding in place if
the key is present, otherwise appends it. -/
def setItem {α : Type} (kvs : List (String × α)) (k : String) (v : α) :
    List (String × α) :=
  match kvs with
  | [] => [(k, v)]
  | (k', v') :: rest =>
    if k' = k then (k', v) :: rest else (k', v') :: setItem rest k v

/-- Python `repr` of a string (as it appears inside `%s` of a dict):
single-quoted.  Escaping of quotes inside is immaterial to every claim. -/
def pyReprStr (s : String) : String := "'" ++ s ++ "'"

/-- Python `repr` of a list of strings. -/
def pyReprStrList (xs : List String) : String :=
  "[" ++ String.intercalate ", " (xs.map pyReprStr) ++ "]"

/-- Python `str` of a dict mapping field names to error lists, as
produced by `'%s' % dict(form.errors)`. -/
def pyReprErrors (errs : List (String × List String)) : String :=
  "\x7b" ++
    String.intercalate ", "
      (errs.map (fun e => pyReprStr e.1 ++ ": " ++ pyReprStrList e.2)) ++
  "\x7d"

/-- Python `str` of a list of ints, as produced by
`'%s' % accepted_return_codes`. -/
def pyReprIntList (xs : List Nat) : String :=
  "[" ++ String.intercalate ", " (xs.map toString) ++ "]"

/-!
## JSON responses (src/django_api/json.py)

A `JsonResp` models an instance of `JsonResponse` (or a subclass): a
status code plus the body value handed to `set_content`.  The serialized
body is `JsonResp.content`; it is fixed at construction (`set_content`
is called only from `__init__`) and never mutated afterwards.
-/

structure JsonResp where
  status_code : Nat
  data : PyVal

/-- `set_content` (json.py lines 35-38): the body is the data encoded by
`JsonEncoder` with separators `(',', ':')`. -/
def JsonResp.content (r : JsonResp) : String :=
  renderJv (encodePy r.data)

/-- `JsonResponse(data)` (json.py lines 30-33): status 200 (the
`HttpResponse` default), body from `data` (default `\x7b\x7d`). -/
def JsonResponse (data : PyVal := PyVal.dict []) : JsonResp :=
  ⟨200, data⟩

/-- `JsonResponseBadRequest(data)`: status 400. -/
def JsonResponseBadRequest (data : PyVal := PyVal.dict []) : JsonResp :=
  ⟨400, data⟩

/-- The body dict built by `JsonResponseWithStatus.__init__` (json.py
lines 54-60): `error_type` is the given one when truthy, else the
variant's status code; `error_message` always; `field_errors` only when
truthy. -/
def JsonResponseWithStatus_data (status_code : Nat) (error_message : PyVal)
    (error_type : PyVal) (field_errors : PyVal) : PyVal :=
  PyVal.dict
    ([("error_type",
        if pyTruthy error_type then error_type else PyVal.int status_code),
      ("error_message", error_message)] ++
     (if pyTruthy field_errors then [("field_errors", field_errors)] else []))

/-- `JsonResponseWithStatus(error_message, error_type, field_errors)`
for a subclass with the given status code; the arguments default to
`''`, `None`, `None`. -/
def JsonResponseWithStatus (status_code : Nat)
    (error_message : PyVal := PyVal.str "")
    (error_type : PyVal := PyVal.none)
    (field_errors : PyVal := PyVal.none) : JsonResp :=
  ⟨status_code,
   JsonResponseWithStatus_data status_code error_message error_type
     field_errors⟩

/-- `JsonResponseNotFound(msg)`: the `JsonResponseWithStatus` subclass
with status 404. -/
def JsonResponseNotFound (error_message : PyVal := PyVal.str "") : JsonResp :=
  JsonResponseWithStatus 404 error_message

/-- What a view function may return: a `JsonResponse` instance, or some
other `HttpResponse` carrying only a status code (all that `api_returns`
inspects of it). -/
inductive HandlerResponse where
  | json (r : JsonResp) : HandlerResponse
  | http (status_code : Nat) : HandlerResponse

/-- `isinstance(return_value, JsonResponse)`. -/
def HandlerResponse.isJson : HandlerResponse → Bool
  | HandlerResponse.json _ => true
  | HandlerResponse.http _ => false

/-- `return_value.status_code` (defined on every `HttpResponse`). -/
def HandlerResponse.statusCode : HandlerResponse → Nat
  | HandlerResponse.json r => r.status_code
  | HandlerResponse.http n => n

/-!
## Requests and the form engine

A `Request` models the Django `HttpRequest` as far as this code reads
it: a method, the GET and POST query dicts (of raw strings), the
combined `REQUEST` dict, the raw body, the path, and a map for every
other attribute.  `runForm` models the host framework's form validation
(spec section 6): each declared field cleans the raw value found under
its name; the form is valid iff no field reported errors, and
`cleaned_data` holds the coerced values of the fields that validated.
-/

structure Request where
  method : String
  GET : List (String × String)
  POST : List (String × String)
  REQUEST : List (String × String)
  raw_post_data : String
  path : String
  attrs : String → PyVal

/-- `object.__getattribute__` on a `Request`: the structured fields by
their Python names, everything else through `attrs`. -/
def Request.getattribute (r : Request) (name : String) : PyVal :=
  if name = "method" then PyVal.str r.method
  else if name = "GET" then PyVal.dict (r.GET.map (fun p => (p.1, PyVal.str p.2)))
  else if name = "POST" then PyVal.dict (r.POST.map (fun p => (p.1, PyVal.str p.2)))
  else if name = "REQUEST" then PyVal.dict (r.REQUEST.map (fun p => (p.1, PyVal.str p.2)))
  else if name = "raw_post_data" then PyVal.str r.raw_post_data
  else if name = "path" then PyVal.str r.path
  else r.attrs name

/-- A Django form field, abstracted to its cleaning behavior: given the
raw value bound to its name (or `Option.none` when absent from the
data), produce the cleaned value or a list of error messages. -/
structure FormField where
  clean : Option String → Except (List String) PyVal

/-- A `models.Model` entry of an `api_accepts` schema: the model's name
(for messages) and its manager's table, primary key to instance
(`Model.objects`). -/
structure ModelSpec where
  typeName : String
  objects : List (Int × PyVal)

/-- `Model.objects.get(pk=...)`: the record with that primary key, or
`DoesNotExist` (modelled as `Option.none`). -/
def lookupPk (objects : List (Int × PyVal)) (pk : Int) : Option PyVal :=
  match objects with
  | [] => Option.none
  | (k, v) :: rest => if k = pk then some v else lookupPk rest pk

/-- `Model.objects.get(pk=...)` on a concrete model. -/
def ModelSpec.get (m : ModelSpec) (pk : Int) : Option PyVal :=
  lookupPk m.objects pk

/-- An entry of the `fields` dict passed to `api_accepts`: either a
Django form field or a `models.Model` instance. -/
inductive FieldEntry where
  | formField (f : FormField) : FieldEntry
  | modelField (m : ModelSpec) : FieldEntry

/-- The form-field entries of the schema — the only entries that become
fields of the dynamically built `ApiForm` class (a `models.Model`
instance in the class dict is not a form field, so the form metaclass
ignores it). -/
def formFields (fields : List (String × FieldEntry)) :
    List (String × FormField) :=
  match fields with
  | [] => []
  | (n, FieldEntry.formField f) :: rest => (n, f) :: formFields rest
  | (_, FieldEntry.modelField _) :: rest => formFields rest

/-- The state of a bound, validated Django form: validity, the error
dict, and the cleaned data. -/
structure Form where
  is_valid : Bool
  errors : List (String × List String)
  cleaned_data : List (String × PyVal)

/-- Model of the host framework's form engine: bind `data` to the
declared fields and validate.  `errors` collects each failing field's
messages, `cleaned_data` each succeeding field's cleaned value, and the
form is valid iff `errors` is empty. -/
def runForm (ffs : List (String × FormField)) (data : List (String × String)) :
    Form :=
  let results := ffs.map (fun nf => (nf.1, nf.2.clean (lookupStr data nf.1)))
  { is_valid := results.all (fun nr => nr.2.isOk),
    errors := results.filterMap (fun nr =>
      match nr.2 with
      | Except.error es => some (nr.1, es)
      | Except.ok _ => Option.none),
    cleaned_data := results.filterMap (fun nr =>
      match nr.2 with
      | Except.ok v => some (nr.1, v)
      | Except.error _ => Option.none) }

/-- `getattr(request, request.method)` for a GET or POST request
(decorators.py line 79). -/
def requestData (request : Request) : List (String × String) :=
  if request.method = "GET" then request.GET else request.POST

/-!
## api_accepts (src/django_api/decorators.py lines 35-119)
-/

/-- The message of the 400 response on validation failure
(decorators.py lines 83-85): `'failed to validate: %s' % dict(form.errors)`. -/
def validationFailMsg (errs : List (String × List String)) : String :=
  "failed to validate: " ++ pyReprErrors errs

/-- The message of the 400 response when a model field's companion id
is absent (decorators.py lines 102-104). -/
def fieldNotPresentMsg (field_name : String) : String :=
  "field " ++ field_name ++ " not present"

/-- The message of the 404 response when no record has the given
primary key (decorators.py lines 109-113): `field_type` formats as
Python renders a class object. -/
def doesNotExistMsg (m : ModelSpec) (pk : Int) : String :=
  "<class '" ++ m.typeName ++ "'> with pk=" ++ toString pk ++ " does not exist"

/-- How the model-resolution loop stops early: with a response to
return, or with an uncaught exception (`int()` raising `ValueError`). -/
inductive ResolveStop where
  | resp (r : JsonResp) : ResolveStop
  | exc : ResolveStop

/-- The loop of decorators.py lines 96-114: for each `models.Model`
entry, require `'<name>-id'` in `request.REQUEST` (else 400), parse it
with `int` (a failure raises), look the record up by primary key (else
404), and store it into `form.cleaned_data` under the field's name. -/
def resolveModels (fields : List (String × FieldEntry)) (request : Request)
    (cleaned : List (String × PyVal)) :
    Except ResolveStop (List (String × PyVal)) :=
  match fields with
  | [] => Except.ok cleaned
  | (_, FieldEntry.formField _) :: rest => resolveModels rest request cleaned
  | (field_name, FieldEntry.modelField m) :: rest =>
    let field_id := field_name ++ "-id"
    match lookupStr request.REQUEST field_id with
    | Option.none =>
      Except.error (ResolveStop.resp
        (JsonResponseBadRequest (PyVal.str (fieldNotPresentMsg field_name))))
    | some raw =>
      match pyInt raw with
      | Option.none => Except.error ResolveStop.exc
      | some field_pk =>
        match m.get field_pk with
        | Option.none =>
          Except.error (ResolveStop.resp
            (JsonResponseNotFound (PyVal.str (doesNotExistMsg m field_pk))))
        | some field_value =>
          resolveModels rest request (setItem cleaned field_name field_value)

/-- What `wrapped_func` does before (or instead of) calling the view:
call it with the original request, call it with a `ValidatedRequest`
wrapping the given final form, short-circuit with a response, or let an
exception propagate. -/
inductive AcceptOutcome where
  | callOrig : AcceptOutcome
  | callValidated (form : Form) : AcceptOutcome
  | shortCircuit (r : JsonResp) : AcceptOutcome
  | uncaught : AcceptOutcome

/-- The control flow of `api_accepts`'s `wrapped_func` (decorators.py
lines 72-117), parameterized by `settings.DEBUG`:
methods other than GET/POST pass straight through (lines 73-74); the
form is built from the method's data and validated (lines 78-81); on
failure, debug mode short-circuits with a 400 describing the errors
(lines 82-85) while production mode logs and calls the view with the
original request (lines 86-92); then model fields are resolved (lines
96-114) and the view is called with a `ValidatedRequest` carrying the
updated `cleaned_data` (lines 116-117). -/
def api_accepts_dispatch (fields : List (String × FieldEntry)) (debug : Bool)
    (request : Request) : AcceptOutcome :=
  if ¬ (request.method = "GET" ∨ request.method = "POST") then
    AcceptOutcome.callOrig
  else
    let form := runForm (formFields fields) (requestData request)
    if ¬ form.is_valid then
      if debug then
        AcceptOutcome.shortCircuit
          (JsonResponseBadRequest (PyVal.str (validationFailMsg form.errors)))
      else
        AcceptOutcome.callOrig
    else
      match resolveModels fields request form.cleaned_data with
      | Except.ok cd => AcceptOutcome.callValidated { form with cleaned_data := cd }
      | Except.error (ResolveStop.resp r) => AcceptOutcome.shortCircuit r
      | Except.error ResolveStop.exc => AcceptOutcome.uncaught

/-- The argument the view receives: the original request, or a
`ValidatedRequest` wrapper (decorators.py lines 15-32) around it. -/
inductive ReqView where
  | orig (r : Request) : ReqView
  | validated (r : Request) (form : Form) : ReqView

/-- `api_accepts(fields)(func)(request)`: run the dispatch and call the
view accordingly.  `Option.none` models an uncaught exception. -/
def api_accepts (fields : List (String × FieldEntry)) (debug : Bool)
    (func : ReqView → HandlerResponse) (request : Request) :
    Option HandlerResponse :=
  match api_accepts_dispatch fields debug request with
  | AcceptOutcome.callOrig => some (func (ReqView.orig request))
  | AcceptOutcome.callValidated form => some (func (ReqView.validated request form))
  | AcceptOutcome.shortCircuit r => some (HandlerResponse.json r)
  | AcceptOutcome.uncaught => Option.none

/-- The `ValidatedRequest` wrapper (decorators.py lines 15-32). -/
structure ValidatedRequest where
  orig_request : Request
  form : Form

/-- `ValidatedRequest.__getattr__` (decorators.py lines 28-32): `GET`
and `POST` both answer with the form's cleaned data; every other name
is read off the original request. -/
def ValidatedRequest.getattr (vr : ValidatedRequest) (name : String) : PyVal :=
  if name = "GET" ∨ name = "POST" then PyVal.dict vr.form.cleaned_data
  else vr.orig_request.getattribute name

/-!
## api_returns (src/django_api/decorators.py lines 122-182)
-/

/-- The message of the 400 response on a return-code contract violation
(decorators.py lines 169-172). -/
def returnsViolationMsg (code : Nat) (accepted : List Nat) : String :=
  "API returned " ++ toString code ++ " instead of acceptable values " ++
    pyReprIntList accepted

/-- `api_returns(return_values)` applied to the value the view returned
(decorators.py lines 153-180).  `return_values` is the declared contract
(status code, documentation); its key order is that of the Python dict.
A non-`JsonResponse` return is converted to a 400 in debug mode and only
logged otherwise; then the status code is checked against the declared
codes plus the always-accepted 500, a violation again yielding a 400 in
debug mode and only a log line otherwise; finally the original return
value passes through. -/
def api_returns_wrap (return_values : List (Nat × String)) (debug : Bool)
    (return_value : HandlerResponse) : HandlerResponse :=
  if ¬ return_value.isJson ∧ debug then
    HandlerResponse.json
      (JsonResponseBadRequest (PyVal.str "API did not return JSON"))
  else
    let accepted_return_codes := return_values.map Prod.fst ++ [500]
    if ¬ return_value.statusCode ∈ accepted_return_codes then
      if debug then
        HandlerResponse.json
          (JsonResponseBadRequest (PyVal.str
            (returnsViolationMsg return_value.statusCode accepted_return_codes)))
      else return_value
    else return_value

/-- `api_returns(return_values)(func)(request)`. -/
def api_returns (return_values : List (Nat × String)) (debug : Bool)
    (func : Request → HandlerResponse) (request : Request) : HandlerResponse :=
  api_returns_wrap return_values debug (func request)

/-!
## validate_json_request (src/django_api/decorators.py lines 221-247)
-/

/-- `k not in request_dict` for the parsed JSON value: key membership
for objects, element membership for arrays; on a value supporting no
containment test `Option.none` models the `TypeError` Python raises. -/
def pyNotIn (k : String) : Jv → Option Bool
  | Jv.obj kvs => some (¬ hasKeyStr kvs k)
  | Jv.arr xs =>
    some (¬ xs.any (fun v => match v with | Jv.str s => s = k | _ => false))
  | _ => Option.none

/-- The first required key reported missing by the loop of
decorators.py lines 240-243, or a `TypeError` (`Option.none` inside
`Except.ok`… flattened: `Except.error` = exception, `Except.ok
Option.none` = all present). -/
def firstMissing (required_fields : List String) (request_dict : Jv) :
    Except Unit (Option String) :=
  match required_fields with
  | [] => Except.ok Option.none
  | k :: rest =>
    match pyNotIn k request_dict with
    | Option.none => Except.error ()
    | some true => Except.ok (some k)
    | some false => firstMissing rest request_dict

/-- How `validate_json_request`'s `wrapped_func` proceeds: short-circuit
with a response, call the view with the parsed value as the extra
second argument, or let an exception propagate. -/
inductive VjrOutcome where
  | response (r : JsonResp) : VjrOutcome
  | callHandler (request_dict : Jv) : VjrOutcome
  | uncaught : VjrOutcome

/-- The control flow of `validate_json_request(required_fields)`
(decorators.py lines 234-245), parameterized by `loads`, the external
JSON parser (`simplejson.loads`, spec section 1 treats the JSON library
as a collaborator): a parse failure yields a 400 quoting the error;
a required key missing from the parsed value yields a 400 naming it;
otherwise the view is called with the parsed value. -/
def validate_json_request_dispatch (required_fields : List String)
    (loads : String → Except String Jv) (request : Request) : VjrOutcome :=
  match loads request.raw_post_data with
  | Except.error e =>
    VjrOutcome.response
      (JsonResponseBadRequest (PyVal.str ("invalid POST JSON: " ++ e)))
  | Except.ok request_dict =>
    match firstMissing required_fields request_dict with
    | Except.error () => VjrOutcome.uncaught
    | Except.ok (some k) =>
      VjrOutcome.response
        (JsonResponseBadRequest (PyVal.str
          ("POST JSON must contain property '" ++ k ++ "'")))
    | Except.ok Option.none => VjrOutcome.callHandler request_dict

/-- `validate_json_request(required_fields)(func)(request)`: the view
receives the request and, as second argument, the parsed body.
`Option.none` models an uncaught exception. -/
def validate_json_request (required_fields : List String)
    (loads : String → Except String Jv)
    (func : Request → Jv → HandlerResponse) (request : Request) :
    Option HandlerResponse :=
  match validate_json_request_dispatch required_fields loads request with
  | VjrOutcome.response r => some (HandlerResponse.json r)
  | VjrOutcome.callHandler d => some (func request d)
  | VjrOutcome.uncaught => Option.none

/-!
## Concrete instances used by witnesses and counterexamples
-/

/-- A `forms.IntegerField()`: required; absent or non-integer raw
values are errors, with Django's stock messages. -/
def integerField : FormField :=
  ⟨fun raw =>
    match raw with
    | Option.none => Except.error ["This field is required."]
    | some s =>
      match pyInt s with
      | some n => Except.ok (PyVal.int n)
      | Option.none => Except.error ["Enter a whole number."]⟩

/-- A GET request carrying the given query data (Django merges GET data
into `request.REQUEST`). -/
def getRequest (data : List (String × String)) : Request :=
  { method := "GET", GET := data, POST := [], REQUEST := data,
    raw_post_data := "", path := "/view", attrs := fun _ => PyVal.none }

/-- `User` model with a single record of primary key 1. -/
def userModel : ModelSpec := ⟨"User", [(1, PyVal.object 1)]⟩

/-- Schema of claim C2's counterexample: a required integer and a model
reference over an empty table. -/
def fieldsNoRecord : List (String × FieldEntry) :=
  [("x", FieldEntry.formField integerField),
   ("user", FieldEntry.modelField ⟨"User", []⟩)]

/-- The counterexample request: it supplies `user-id=5` (matching no
record) but omits the required integer `x`. -/
def requestNoRecord : Request := getRequest [("user-id", "5")]

/-- Schema of claim C2's witness, as in the repository's own test
(tests.py lines 71-74): a required integer plus a `User` reference. -/
def fieldsUser : List (String × FieldEntry) :=
  [("im_required", FieldEntry.formField integerField),
   ("user", FieldEntry.modelField userModel)]

/-- The witness request (tests.py line 79): the integer validates and
`user-id=99999` matches no record. -/
def requestUser : Request :=
  getRequest [("im_required", "10"), ("user-id", "99999")]

/-- A contract as declared in tests.py lines 120-123. -/
def okForbiddenContract : List (Nat × String) :=
  [(200, "OK"), (403, "Permission denied")]

/-- An external JSON parser instance for witnesses: recognizes the two
concrete bodies the witnesses use and rejects everything else. -/
def loadsW (s : String) : Except String Jv :=
  if s = "\x7b\"name\":\"a\"\x7d" then
    Except.ok (Jv.obj [("name", Jv.str "a")])
  else if s = "\x7b\"name\":\"a\",\"date\":\"d\"\x7d" then
    Except.ok (Jv.obj [("name", Jv.str "a"), ("date", Jv.str "d")])
  else Except.error "No JSON object could be decoded"

/-- A POST request with the given raw body. -/
def postBody (body : String) : Request :=
  { method := "POST", GET := [], POST := [], REQUEST := [],
    raw_post_data := body, path := "/view", attrs := fun _ => PyVal.none }

/-- The entries of a Python dict value (empty for non-dicts). -/
def dictEntries : PyVal → List (String × PyVal)
  | PyVal.dict kvs => kvs
  | _ => []

/-!
## Theorems

General-purpose lemmas first, then one theorem per claim (with a witness
where the theorem carries hypotheses).
-/


theorem plainChar_digitChar (m : Nat) (h : m < 10) :
    plainChar (Nat.digitChar m) = true := by
  revert h
  revert m
  decide

theorem plainChar_spec (c : Char) (h : plainChar c = true) :
    c ≠ '"' ∧ c ≠ '\\' ∧ ¬ c.toNat < 32 := by
  simp only [plainChar, Bool.and_eq_true, decide_eq_true_eq] at h
  exact ⟨h.1.1, h.1.2, by omega⟩

theorem escapeChar_plain (c : Char) (h : plainChar c = true) :
    escapeChar c = [c] := by
  obtain ⟨h1, h2, h3⟩ := plainChar_spec c h
  simp [escapeChar, h1, h2, h3]

theorem escapeList_plain (cs : List Char)
    (h : ∀ c ∈ cs, plainChar c = true) : escapeList cs = cs := by
  induction cs with
  | nil => rfl
  | cons c cs ih =>
    rw [escapeList, escapeChar_plain c (h c (by simp)),
      ih (fun x hx => h x (by simp [hx]))]
    rfl

theorem scanStringLit_plain (cs : List Char) (rest : List Char)
    (acc : List Char) (h : ∀ c ∈ cs, plainChar c = true) :
    scanStringLit acc (cs ++ '"' :: rest) = some (⟨acc.reverse ++ cs⟩, rest) := by
  induction cs generalizing acc with
  | nil =>
    rw [List.nil_append, scanStringLit.eq_def]
    simp
  | cons c cs ih =>
    obtain ⟨h1, h2, h3⟩ := plainChar_spec c (h c (by simp))
    rw [List.cons_append, scanStringLit.eq_def]
    simp only [if_neg h1, if_neg h2, if_neg h3,
      ih (c :: acc) (fun x hx => h x (by simp [hx]))]
    simp

theorem parseJsonString_quoted (cs : List Char) :
    parseJsonString ⟨'"' :: cs⟩ =
      (match scanStringLit [] cs with
       | some (out, []) => some out
       | _ => Option.none) := rfl

theorem parse_renderString_plain (s : String)
    (h : ∀ c ∈ s.data, plainChar c = true) :
    parseJsonString (renderString s) = some s := by
  have hmk : renderString s = ⟨'"' :: (s.data ++ '"' :: [])⟩ := by
    simp [renderString, escapeList_plain s.data h]
  rw [hmk, parseJsonString_quoted, scanStringLit_plain s.data [] [] h]
  simp

theorem mem_append_plain {l1 l2 : List Char}
    (h1 : ∀ c ∈ l1, plainChar c = true) (h2 : ∀ c ∈ l2, plainChar c = true) :
    ∀ c ∈ l1 ++ l2, plainChar c = true := by
  intro c hc
  rcases List.mem_append.mp hc with h | h
  · exact h1 c h
  · exact h2 c h

theorem mem_cons_plain {c0 : Char} {l : List Char}
    (h0 : plainChar c0 = true) (h : ∀ c ∈ l, plainChar c = true) :
    ∀ c ∈ c0 :: l, plainChar c = true := by
  intro c hc
  rcases List.mem_cons.mp hc with h' | h'
  · rw [h']; exact h0
  · exact h c h'

theorem pad2_plain (n : Nat) : ∀ c ∈ pad2 n, plainChar c = true := by
  intro c hc
  simp only [pad2, List.mem_cons, List.not_mem_nil, or_false] at hc
  rcases hc with h | h <;>
    (rw [h]; exact plainChar_digitChar _ (Nat.mod_lt _ (by norm_num)))

theorem pad4_plain (n : Nat) : ∀ c ∈ pad4 n, plainChar c = true := by
  intro c hc
  simp only [pad4, List.mem_cons, List.not_mem_nil, or_false] at hc
  rcases hc with h | h | h | h <;>
    (rw [h]; exact plainChar_digitChar _ (Nat.mod_lt _ (by norm_num)))

theorem pad6_plain (n : Nat) : ∀ c ∈ pad6 n, plainChar c = true := by
  intro c hc
  simp only [pad6, List.mem_cons, List.not_mem_nil, or_false] at hc
  rcases hc with h | h | h | h | h | h <;>
    (rw [h]; exact plainChar_digitChar _ (Nat.mod_lt _ (by norm_num)))

theorem isoformat_date_plain (d : PyDate) :
    ∀ c ∈ (PyDate.isoformat d).data, plainChar c = true := by
  have key : ∀ c ∈ pad4 d.year ++
      (('-' :: pad2 d.month) ++ ('-' :: pad2 d.day)), plainChar c = true :=
    mem_append_plain (pad4_plain _)
      (mem_append_plain (mem_cons_plain (by decide) (pad2_plain _))
        (mem_cons_plain (by decide) (pad2_plain _)))
  intro c hc
  exact key c hc

theorem microsecondSuffix_plain (b : Prop) [Decidable b] (n : Nat) :
    ∀ c ∈ (if b then '.' :: pad6 n else ([] : List Char)),
      plainChar c = true := by
  split
  · exact mem_cons_plain (by decide) (pad6_plain _)
  · intro c hc
    simp at hc

theorem isoformat_datetime_plain (dt : PyDatetime) :
    ∀ c ∈ (PyDatetime.isoformat dt).data, plainChar c = true := by
  have key : ∀ c ∈ pad4 dt.year ++
      (('-' :: pad2 dt.month) ++ (('-' :: pad2 dt.day) ++
       (('T' :: pad2 dt.hour) ++ ((':' :: pad2 dt.minute) ++
        (':' :: (pad2 dt.second ++
          (if dt.microsecond ≠ 0 then '.' :: pad6 dt.microsecond
           else ([] : List Char)))))))), plainChar c = true :=
    mem_append_plain (pad4_plain _)
      (mem_append_plain (mem_cons_plain (by decide) (pad2_plain _))
        (mem_append_plain (mem_cons_plain (by decide) (pad2_plain _))
          (mem_append_plain (mem_cons_plain (by decide) (pad2_plain _))
            (mem_append_plain (mem_cons_plain (by decide) (pad2_plain _))
              (mem_cons_plain (by decide)
                (mem_append_plain (pad2_plain _)
                  (microsecondSuffix_plain _ _)))))))
  intro c hc
  exact key c hc

/-- Claim C6: for every date or datetime value v, encoding v through the
JSON response encoder and parsing the resulting JSON back yields a
string equal to v's ISO-8601 representation (`v.isoformat()`). -/
theorem json_encoder_isoformat_roundtrip :
    (∀ d : PyDate,
      parseJsonString (renderJv (encodePy (PyVal.date d))) = some d.isoformat) ∧
    (∀ dt : PyDatetime,
      parseJsonString (renderJv (encodePy (PyVal.datetime dt))) =
        some dt.isoformat) := by
  constructor
  · intro d
    show parseJsonString (renderString d.isoformat) = some d.isoformat
    exact parse_renderString_plain _ (isoformat_date_plain d)
  · intro dt
    show parseJsonString (renderString dt.isoformat) = some dt.isoformat
    exact parse_renderString_plain _ (isoformat_datetime_plain dt)

/-- The inlined non-native branches of `encodePy` agree with encoding
the value `JsonEncoder.default` returns for them (faithfulness of the
inlining in `encodePy` to the library's default-then-re-encode loop). -/
theorem encodePy_agrees_with_default :
    (∀ d : PyDate, encodePy (PyVal.date d) = encodePy (PyVal.str d.isoformat)) ∧
    (∀ dt : PyDatetime,
      encodePy (PyVal.datetime dt) = encodePy (PyVal.str dt.isoformat)) ∧
    (∀ q : ℚ, encodePy (PyVal.decimal q) = encodePy (PyVal.float q)) ∧
    (∀ xs : List PyVal,
      encodePy (PyVal.queryset xs) = encodePy (PyVal.list xs)) ∧
    (∀ tag : Nat, encodePy (PyVal.object tag) = encodePy PyVal.none) :=
  ⟨fun _ => rfl, fun _ => rfl, fun _ => rfl, fun _ => rfl, fun _ => rfl⟩

/-- Claim C9: the JSON response encoder never raises — `default`
returns a value on every input (the base-class `default` would raise),
an unhandled value is serialized as JSON `null`, and consequently every
`JsonResponse` construction succeeds, its content being the rendering
of the encoded data. -/
theorem json_encoder_never_raises :
    (∀ v : PyVal, (JsonEncoder.default v).isSome = true) ∧
    (∀ tag : Nat, JsonEncoder.default (PyVal.object tag) = some PyVal.none ∧
      encodePy (PyVal.object tag) = Jv.null) ∧
    (∀ data : PyVal, (JsonResponse data).content = renderJv (encodePy data)) := by
  refine ⟨fun v => ?_, fun tag => ⟨rfl, rfl⟩, fun data => rfl⟩
  cases v <;> rfl

/-- Claim C10: on a `ValidatedRequest`, reading `GET` or `POST` —
whatever method the original request used — yields the form's cleaned
data, and reading any other attribute name yields exactly the original
request's value for it. -/
theorem validated_request_getattr_spec (orig : Request) (form : Form)
    (name : String) :
    ((name = "GET" ∨ name = "POST") →
      ValidatedRequest.getattr ⟨orig, form⟩ name =
        PyVal.dict form.cleaned_data) ∧
    (¬ (name = "GET" ∨ name = "POST") →
      ValidatedRequest.getattr ⟨orig, form⟩ name =
        orig.getattribute name) := by
  constructor
  · intro h
    simp [ValidatedRequest.getattr, h]
  · intro h
    simp [ValidatedRequest.getattr, h]

theorem validated_request_getattr_spec_witness :
    (("POST" = "GET" ∨ "POST" = "POST") ∧
      ValidatedRequest.getattr
        ⟨getRequest [("x", "3")], ⟨true, [], [("x", PyVal.int 3)]⟩⟩ "POST" =
          PyVal.dict [("x", PyVal.int 3)]) ∧
    (¬ ("path" = "GET" ∨ "path" = "POST") ∧
      ValidatedRequest.getattr
        ⟨getRequest [("x", "3")], ⟨true, [], [("x", PyVal.int 3)]⟩⟩ "path" =
          (getRequest [("x", "3")]).getattribute "path") :=
  ⟨⟨Or.inr rfl,
    (validated_request_getattr_spec (getRequest [("x", "3")])
      ⟨true, [], [("x", PyVal.int 3)]⟩ "POST").1 (Or.inr rfl)⟩,
   ⟨by decide,
    (validated_request_getattr_spec (getRequest [("x", "3")])
      ⟨true, [], [("x", PyVal.int 3)]⟩ "path").2 (by decide)⟩⟩

/-- Claim C8: an error-variant response's body is an object whose
`error_message` is the given message, whose `error_type` is the given
type when that is non-falsy and the variant's status code otherwise,
and which has a `field_errors` entry exactly when field errors were
provided and non-empty (truthy), equal to them. -/
theorem json_response_with_status_body (status_code : Nat) (m : String)
    (t f : PyVal) :
    (JsonResponseWithStatus status_code (PyVal.str m) t f).data =
      JsonResponseWithStatus_data status_code (PyVal.str m) t f ∧
    lookupStr
      (dictEntries (JsonResponseWithStatus_data status_code (PyVal.str m) t f))
      "error_message" = some (PyVal.str m) ∧
    (pyTruthy t = true →
      lookupStr
        (dictEntries
          (JsonResponseWithStatus_data status_code (PyVal.str m) t f))
        "error_type" = some t) ∧
    (pyTruthy t = false →
      lookupStr
        (dictEntries
          (JsonResponseWithStatus_data status_code (PyVal.str m) t f))
        "error_type" = some (PyVal.int status_code)) ∧
    (pyTruthy f = true →
      lookupStr
        (dictEntries
          (JsonResponseWithStatus_data status_code (PyVal.str m) t f))
        "field_errors" = some f) ∧
    (pyTruthy f = false →
      lookupStr
        (dictEntries
          (JsonResponseWithStatus_data status_code (PyVal.str m) t f))
        "field_errors" = Option.none) := by
  refine ⟨rfl, ?_, ?_, ?_, ?_, ?_⟩ <;>
    simp [JsonResponseWithStatus_data, dictEntries, lookupStr] <;>
    intro h <;> simp [h, lookupStr]


/-- Unfolding of `api_returns_wrap` on a `JsonResponse` return value:
the non-JSON branch is skipped and only the status-code check remains. -/
theorem api_returns_wrap_json (return_values : List (Nat × String))
    (debug : Bool) (r : JsonResp) :
    api_returns_wrap return_values debug (HandlerResponse.json r) =
      if ¬ r.status_code ∈ return_values.map Prod.fst ++ [500] then
        if debug then
          HandlerResponse.json (JsonResponseBadRequest (PyVal.str
            (returnsViolationMsg r.status_code
              (return_values.map Prod.fst ++ [500]))))
        else HandlerResponse.json r
      else HandlerResponse.json r := by
  rw [api_returns_wrap, if_neg]
  · rfl
  · simp [HandlerResponse.isJson]

/-- Claim C3: for a declared return-code contract, a JSON response with
a declared status code passes through unchanged in both modes; one with
an undeclared, non-500 status code becomes a 400 in strict mode and
passes through unchanged in lenient mode. -/
theorem api_returns_contract_policy (return_values : List (Nat × String))
    (r : JsonResp) :
    (r.status_code ∈ return_values.map Prod.fst →
      ∀ debug : Bool,
        api_returns_wrap return_values debug (HandlerResponse.json r) =
          HandlerResponse.json r) ∧
    (r.status_code ∉ return_values.map Prod.fst → r.status_code ≠ 500 →
      api_returns_wrap return_values true (HandlerResponse.json r) =
        HandlerResponse.json (JsonResponseBadRequest (PyVal.str
          (returnsViolationMsg r.status_code
            (return_values.map Prod.fst ++ [500])))) ∧
      (JsonResponseBadRequest (PyVal.str
        (returnsViolationMsg r.status_code
          (return_values.map Prod.fst ++ [500])))).status_code = 400 ∧
      api_returns_wrap return_values false (HandlerResponse.json r) =
        HandlerResponse.json r) := by
  constructor
  · intro hmem debug
    have hin : r.status_code ∈ return_values.map Prod.fst ++ [500] :=
      List.mem_append_left _ hmem
    rw [api_returns_wrap_json, if_neg (not_not_intro hin)]
  · intro hnot h500
    have hout : ¬ r.status_code ∈ return_values.map Prod.fst ++ [500] := by
      simp only [List.mem_append, List.mem_singleton]
      rintro (h | h)
      · exact hnot h
      · exact h500 h
    refine ⟨?_, rfl, ?_⟩
    · rw [api_returns_wrap_json, if_pos hout, if_pos rfl]
    · rw [api_returns_wrap_json, if_pos hout, if_neg (by simp)]

theorem api_returns_contract_policy_witness :
    ((JsonResponse (PyVal.dict [])).status_code ∈
        okForbiddenContract.map Prod.fst ∧
      api_returns_wrap okForbiddenContract true
          (HandlerResponse.json (JsonResponse (PyVal.dict []))) =
        HandlerResponse.json (JsonResponse (PyVal.dict [])) ∧
      api_returns_wrap okForbiddenContract false
          (HandlerResponse.json (JsonResponse (PyVal.dict []))) =
        HandlerResponse.json (JsonResponse (PyVal.dict []))) ∧
    ((202 : Nat) ∉ okForbiddenContract.map Prod.fst ∧ (202 : Nat) ≠ 500 ∧
      api_returns_wrap okForbiddenContract true
          (HandlerResponse.json ⟨202, PyVal.dict []⟩) =
        HandlerResponse.json (JsonResponseBadRequest (PyVal.str
          (returnsViolationMsg 202
            (okForbiddenContract.map Prod.fst ++ [500])))) ∧
      api_returns_wrap okForbiddenContract false
          (HandlerResponse.json ⟨202, PyVal.dict []⟩) =
        HandlerResponse.json ⟨202, PyVal.dict []⟩) :=
  ⟨⟨by decide,
    (api_returns_contract_policy okForbiddenContract
      (JsonResponse (PyVal.dict []))).1 (by decide) true,
    (api_returns_contract_policy okForbiddenContract
      (JsonResponse (PyVal.dict []))).1 (by decide) false⟩,
   by
    have h := (api_returns_contract_policy okForbiddenContract
      ⟨202, PyVal.dict []⟩).2 (by decide) (by decide)
    exact ⟨by decide, by decide, h.1, h.2.2⟩⟩

/-- Claim C4: a JSON response with status 500 from the handler is
returned unchanged by `api_returns` in both modes, whether or not 500
is in the declared contract — a server error never triggers a contract
violation. -/
theorem api_returns_500_exempt (return_values : List (Nat × String))
    (debug : Bool) (r : JsonResp) (h : r.status_code = 500) :
    api_returns_wrap return_values debug (HandlerResponse.json r) =
      HandlerResponse.json r := by
  have hin : r.status_code ∈ return_values.map Prod.fst ++ [500] := by
    rw [h]
    exact List.mem_append_right _ (by simp)
  rw [api_returns_wrap_json, if_neg (not_not_intro hin)]

theorem api_returns_500_exempt_witness :
    ((⟨500, PyVal.dict []⟩ : JsonResp).status_code = 500 ∧
      (500 : Nat) ∉ okForbiddenContract.map Prod.fst) ∧
    api_returns_wrap okForbiddenContract true
        (HandlerResponse.json ⟨500, PyVal.dict []⟩) =
      HandlerResponse.json ⟨500, PyVal.dict []⟩ ∧
    api_returns_wrap okForbiddenContract false
        (HandlerResponse.json ⟨500, PyVal.dict []⟩) =
      HandlerResponse.json ⟨500, PyVal.dict []⟩ :=
  ⟨⟨rfl, by decide⟩,
   api_returns_500_exempt okForbiddenContract true ⟨500, PyVal.dict []⟩ rfl,
   api_returns_500_exempt okForbiddenContract false ⟨500, PyVal.dict []⟩ rfl⟩

/-- Claim C5: a request whose method is neither GET nor POST is passed
to the view unchanged, with no validation, for every schema and in both
modes. -/
theorem api_accepts_other_methods_pass_through
    (fields : List (String × FieldEntry)) (debug : Bool)
    (func : ReqView → HandlerResponse) (request : Request)
    (hm : ¬ (request.method = "GET" ∨ request.method = "POST")) :
    api_accepts_dispatch fields debug request = AcceptOutcome.callOrig ∧
    api_accepts fields debug func request =
      some (func (ReqView.orig request)) := by
  have h1 : api_accepts_dispatch fields debug request =
      AcceptOutcome.callOrig := by
    rw [api_accepts_dispatch, if_pos hm]
  exact ⟨h1, by rw [api_accepts, h1]⟩

theorem api_accepts_other_methods_pass_through_witness :
    ¬ (({ getRequest [] with method := "PUT" } : Request).method = "GET" ∨
       ({ getRequest [] with method := "PUT" } : Request).method = "POST") ∧
    api_accepts fieldsUser true (fun _ => HandlerResponse.http 200)
        { getRequest [] with method := "PUT" } =
      some (HandlerResponse.http 200) :=
  ⟨by decide,
   (api_accepts_other_methods_pass_through fieldsUser true
     (fun _ => HandlerResponse.http 200)
     { getRequest [] with method := "PUT" } (by decide)).2⟩

/-- Unfolding of `api_accepts_dispatch` on a GET/POST request whose
form fails validation: debug mode short-circuits with the 400, lenient
mode falls through to calling the view with the original request. -/
theorem api_accepts_dispatch_invalid (fields : List (String × FieldEntry))
    (debug : Bool) (request : Request)
    (hm : request.method = "GET" ∨ request.method = "POST")
    (hinv : (runForm (formFields fields) (requestData request)).is_valid
      = false) :
    api_accepts_dispatch fields debug request =
      if debug then
        AcceptOutcome.shortCircuit
          (JsonResponseBadRequest (PyVal.str (validationFailMsg
            (runForm (formFields fields) (requestData request)).errors)))
      else AcceptOutcome.callOrig := by
  rw [api_accepts_dispatch, if_neg (not_not_intro hm)]
  show (if ¬ (runForm (formFields fields) (requestData request)).is_valid
      then _ else _) = _
  rw [if_pos]
  rw [hinv]
  simp

/-- Claim C1: for a schema and a GET/POST request whose values violate
it, strict mode short-circuits — the view is never invoked — with a 400
describing the failing fields, while lenient mode calls the view with
the original, unvalidated request and returns its response unmodified. -/
theorem api_accepts_validation_failure_policy
    (fields : List (String × FieldEntry)) (request : Request)
    (func : ReqView → HandlerResponse)
    (hm : request.method = "GET" ∨ request.method = "POST")
    (hinv : (runForm (formFields fields) (requestData request)).is_valid
      = false) :
    (api_accepts_dispatch fields true request =
        AcceptOutcome.shortCircuit
          (JsonResponseBadRequest (PyVal.str (validationFailMsg
            (runForm (formFields fields) (requestData request)).errors))) ∧
      (JsonResponseBadRequest (PyVal.str (validationFailMsg
        (runForm (formFields fields) (requestData request)).errors))).status_code
        = 400) ∧
    (api_accepts_dispatch fields false request = AcceptOutcome.callOrig ∧
      api_accepts fields false func request =
        some (func (ReqView.orig request))) := by
  have ht := api_accepts_dispatch_invalid fields true request hm hinv
  have hf := api_accepts_dispatch_invalid fields false request hm hinv
  rw [if_pos rfl] at ht
  rw [if_neg (by simp)] at hf
  exact ⟨⟨ht, rfl⟩, hf, by rw [api_accepts, hf]⟩

theorem api_accepts_validation_failure_policy_witness :
    ((getRequest [("hello", "world")]).method = "GET" ∨
      (getRequest [("hello", "world")]).method = "POST") ∧
    (runForm (formFields [("im_required", FieldEntry.formField integerField)])
      (requestData (getRequest [("hello", "world")]))).is_valid = false ∧
    api_accepts_dispatch [("im_required", FieldEntry.formField integerField)]
        true (getRequest [("hello", "world")]) =
      AcceptOutcome.shortCircuit (JsonResponseBadRequest (PyVal.str
        (validationFailMsg [("im_required", ["This field is required."])]))) ∧
    api_accepts [("im_required", FieldEntry.formField integerField)] false
        (fun _ => HandlerResponse.http 200) (getRequest [("hello", "world")]) =
      some (HandlerResponse.http 200) :=
  ⟨Or.inl rfl, rfl,
   ((api_accepts_validation_failure_policy
      [("im_required", FieldEntry.formField integerField)]
      (getRequest [("hello", "world")]) (fun _ => HandlerResponse.http 200)
      (Or.inl rfl) rfl).1).1,
   (api_accepts_validation_failure_policy
      [("im_required", FieldEntry.formField integerField)]
      (getRequest [("hello", "world")]) (fun _ => HandlerResponse.http 200)
      (Or.inl rfl) rfl).2.2⟩

/-- The model-resolution loop processes a concatenated schema left to
right: the suffix runs only if the prefix resolves, on the prefix's
updated cleaned data. -/
theorem resolveModels_append (pre rest : List (String × FieldEntry))
    (request : Request) (cleaned : List (String × PyVal)) :
    resolveModels (pre ++ rest) request cleaned =
      match resolveModels pre request cleaned with
      | Except.ok cd => resolveModels rest request cd
      | Except.error e => Except.error e := by
  induction pre generalizing cleaned with
  | nil => simp [resolveModels]
  | cons hd tl ih =>
    obtain ⟨n, fe⟩ := hd
    cases fe with
    | formField f =>
      rw [List.cons_append]
      show resolveModels (tl ++ rest) request cleaned = _
      rw [ih]
      rfl
    | modelField m =>
      rw [List.cons_append]
      simp only [resolveModels]
      cases hl : lookupStr request.REQUEST (n ++ "-id") with
      | none => rfl
      | some raw =>
        dsimp only
        cases hp : pyInt raw with
        | none => rfl
        | some field_pk =>
          dsimp only
          cases hget : m.get field_pk with
          | none => rfl
          | some field_value =>
            dsimp only
            exact ih (setItem cleaned n field_value)

/-- Claim C2 counterexample: for the schema `fieldsNoRecord` (a required
integer `x` plus a model reference over an empty table) and a strict-mode
GET request supplying `user-id=5` — a primary key matching no record —
but omitting `x`, the claim predicts a 404, yet the code returns a 400:
form validation fails first and short-circuits before reference
resolution; in lenient mode the view is even invoked, so no 404 is
returned in either mode. -/
theorem api_accepts_missing_pk_counterexample :
    api_accepts_dispatch fieldsNoRecord true requestNoRecord =
      AcceptOutcome.shortCircuit (JsonResponseBadRequest (PyVal.str
        (validationFailMsg [("x", ["This field is required."])]))) ∧
    (JsonResponseBadRequest (PyVal.str
      (validationFailMsg
        [("x", ["This field is required."])]))).status_code = 400 ∧
    api_accepts fieldsNoRecord false (fun _ => HandlerResponse.http 200)
        requestNoRecord =
      some (HandlerResponse.http 200) :=
  ⟨rfl, rfl, rfl⟩

/-- Claim C2 (amended): for a schema containing a record-reference
field and a GET/POST request supplying a companion id whose primary key
matches no record, if the declared form fields validate and the
resolution loop reaches that field (every earlier model entry
resolves), then the endpoint short-circuits with a not-found (404)
response, in both strict and lenient modes. -/
theorem api_accepts_missing_pk_resolution_404
    (pre post : List (String × FieldEntry)) (field_name : String)
    (m : ModelSpec) (request : Request) (debug : Bool)
    (cd : List (String × PyVal)) (raw : String) (pk : Int)
    (hm : request.method = "GET" ∨ request.method = "POST")
    (hval : (runForm
      (formFields (pre ++ (field_name, FieldEntry.modelField m) :: post))
      (requestData request)).is_valid = true)
    (hpre : resolveModels pre request
      (runForm
        (formFields (pre ++ (field_name, FieldEntry.modelField m) :: post))
        (requestData request)).cleaned_data = Except.ok cd)
    (hid : lookupStr request.REQUEST (field_name ++ "-id") = some raw)
    (hpk : pyInt raw = some pk)
    (hmiss : m.get pk = Option.none) :
    api_accepts_dispatch
        (pre ++ (field_name, FieldEntry.modelField m) :: post) debug request =
      AcceptOutcome.shortCircuit
        (JsonResponseNotFound (PyVal.str (doesNotExistMsg m pk))) ∧
    (JsonResponseNotFound (PyVal.str (doesNotExistMsg m pk))).status_code
      = 404 := by
  refine ⟨?_, rfl⟩
  rw [api_accepts_dispatch, if_neg (not_not_intro hm)]
  show (if ¬ (runForm
      (formFields (pre ++ (field_name, FieldEntry.modelField m) :: post))
      (requestData request)).is_valid then _ else _) = _
  rw [if_neg (by rw [hval]; simp)]
  rw [resolveModels_append, hpre]
  dsimp only
  simp only [resolveModels, hid, hpk, hmiss]

theorem api_accepts_missing_pk_resolution_404_witness :
    ((requestUser.method = "GET" ∨ requestUser.method = "POST") ∧
      (runForm (formFields fieldsUser) (requestData requestUser)).is_valid
        = true ∧
      lookupStr requestUser.REQUEST ("user" ++ "-id") = some "99999" ∧
      pyInt "99999" = some 99999 ∧
      userModel.get 99999 = Option.none) ∧
    api_accepts_dispatch fieldsUser true requestUser =
      AcceptOutcome.shortCircuit
        (JsonResponseNotFound (PyVal.str (doesNotExistMsg userModel 99999))) ∧
    api_accepts_dispatch fieldsUser false requestUser =
      AcceptOutcome.shortCircuit
        (JsonResponseNotFound (PyVal.str (doesNotExistMsg userModel 99999))) ∧
    (JsonResponseNotFound
      (PyVal.str (doesNotExistMsg userModel 99999))).status_code = 404 :=
  ⟨⟨Or.inl rfl, rfl, rfl, rfl, rfl⟩,
   (api_accepts_missing_pk_resolution_404
      [("im_required", FieldEntry.formField integerField)] [] "user"
      userModel requestUser true [("im_required", PyVal.int 10)] "99999"
      99999 (Or.inl rfl) rfl rfl rfl rfl rfl).1,
   (api_accepts_missing_pk_resolution_404
      [("im_required", FieldEntry.formField integerField)] [] "user"
      userModel requestUser false [("im_required", PyVal.int 10)] "99999"
      99999 (Or.inl rfl) rfl rfl rfl rfl rfl).1,
   (api_accepts_missing_pk_resolution_404
      [("im_required", FieldEntry.formField integerField)] [] "user"
      userModel requestUser true [("im_required", PyVal.int 10)] "99999"
      99999 (Or.inl rfl) rfl rfl rfl rfl rfl).2⟩

/-- On an object body the required-key loop never raises, and a
reported key is a required key that is indeed absent. -/
theorem firstMissing_obj_mem (required : List String)
    (kvs : List (String × Jv)) (k : String)
    (h : firstMissing required (Jv.obj kvs) = Except.ok (some k)) :
    k ∈ required ∧ hasKeyStr kvs k = false := by
  induction required with
  | nil => simp [firstMissing] at h
  | cons a rest ih =>
    simp only [firstMissing, pyNotIn] at h
    by_cases ha : hasKeyStr kvs a
    · simp [ha] at h
      rcases ih h with ⟨h1, h2⟩
      exact ⟨List.mem_cons_of_mem _ h1, h2⟩
    · simp [ha] at h
      subst h
      exact ⟨List.mem_cons_self _ _, by simp [ha]⟩

/-- On an object body containing every required key, the loop reports
nothing missing. -/
theorem firstMissing_obj_none (required : List String)
    (kvs : List (String × Jv))
    (h : ∀ k ∈ required, hasKeyStr kvs k = true) :
    firstMissing required (Jv.obj kvs) = Except.ok Option.none := by
  induction required with
  | nil => rfl
  | cons a rest ih =>
    have ha := h a (by simp)
    simp only [firstMissing, pyNotIn, ha]
    simpa using ih (fun k hk => h k (by simp [hk]))

/-- On an object body missing some required key, the loop reports a
missing key. -/
theorem firstMissing_obj_exists (required : List String)
    (kvs : List (String × Jv))
    (h : ∃ k, k ∈ required ∧ hasKeyStr kvs k = false) :
    ∃ k, firstMissing required (Jv.obj kvs) = Except.ok (some k) := by
  induction required with
  | nil =>
    rcases h with ⟨k, hk, _⟩
    simp at hk
  | cons a rest ih =>
    by_cases ha : hasKeyStr kvs a
    · rcases h with ⟨k, hk, hmiss⟩
      rcases List.mem_cons.mp hk with rfl | hk'
      · rw [ha] at hmiss
        cases hmiss
      · rcases ih ⟨k, hk', hmiss⟩ with ⟨k', hk2⟩
        refine ⟨k', ?_⟩
        simp only [firstMissing, pyNotIn, ha]
        simpa using hk2
    · refine ⟨a, ?_⟩
      simp [firstMissing, pyNotIn, ha]

/-- Claim C7: `validate_json_request` returns a 400 quoting the parse
error when the body is not valid JSON (the view is not invoked); a 400
naming a missing required key when the parsed object lacks one (as in
the spec's example, required keys name/date with only name present
citing `date`); and otherwise invokes the view with the parsed value as
an additional second argument. -/
theorem validate_json_request_policy (required_fields : List String)
    (loads : String → Except String Jv)
    (func : Request → Jv → HandlerResponse) (request : Request) :
    (∀ e, loads request.raw_post_data = Except.error e →
      validate_json_request_dispatch required_fields loads request =
        VjrOutcome.response (JsonResponseBadRequest (PyVal.str
          ("invalid POST JSON: " ++ e))) ∧
      (JsonResponseBadRequest
        (PyVal.str ("invalid POST JSON: " ++ e))).status_code = 400 ∧
      validate_json_request required_fields loads func request =
        some (HandlerResponse.json (JsonResponseBadRequest (PyVal.str
          ("invalid POST JSON: " ++ e))))) ∧
    (∀ kvs, loads request.raw_post_data = Except.ok (Jv.obj kvs) →
      (∃ k, k ∈ required_fields ∧ hasKeyStr kvs k = false) →
      ∃ k, k ∈ required_fields ∧ hasKeyStr kvs k = false ∧
        validate_json_request_dispatch required_fields loads request =
          VjrOutcome.response (JsonResponseBadRequest (PyVal.str
            ("POST JSON must contain property '" ++ k ++ "'"))) ∧
        (JsonResponseBadRequest (PyVal.str
          ("POST JSON must contain property '" ++ k ++ "'"))).status_code
          = 400) ∧
    (∀ kvs, loads request.raw_post_data = Except.ok (Jv.obj kvs) →
      (∀ k ∈ required_fields, hasKeyStr kvs k = true) →
      validate_json_request required_fields loads func request =
        some (func request (Jv.obj kvs))) := by
  refine ⟨?_, ?_, ?_⟩
  · intro e he
    have hd : validate_json_request_dispatch required_fields loads request =
        VjrOutcome.response (JsonResponseBadRequest (PyVal.str
          ("invalid POST JSON: " ++ e))) := by
      rw [validate_json_request_dispatch, he]
    exact ⟨hd, rfl, by rw [validate_json_request, hd]⟩
  · intro kvs hok hmiss
    rcases firstMissing_obj_exists required_fields kvs hmiss with ⟨k, hk⟩
    rcases firstMissing_obj_mem required_fields kvs k hk with ⟨h1, h2⟩
    refine ⟨k, h1, h2, ?_, rfl⟩
    rw [validate_json_request_dispatch, hok]
    dsimp only
    rw [hk]
  · intro kvs hok hall
    have hd : validate_json_request_dispatch required_fields loads request =
        VjrOutcome.callHandler (Jv.obj kvs) := by
      rw [validate_json_request_dispatch, hok]
      dsimp only
      rw [firstMissing_obj_none required_fields kvs hall]
    rw [validate_json_request, hd]

theorem validate_json_request_policy_witness :
    (loadsW "x" = Except.error "No JSON object could be decoded" ∧
      validate_json_request_dispatch ["name", "date"] loadsW (postBody "x") =
        VjrOutcome.response (JsonResponseBadRequest (PyVal.str
          "invalid POST JSON: No JSON object could be decoded"))) ∧
    (loadsW "\x7b\"name\":\"a\"\x7d" =
        Except.ok (Jv.obj [("name", Jv.str "a")]) ∧
      (∃ k, k ∈ ["name", "date"] ∧
        hasKeyStr [("name", Jv.str "a")] k = false ∧
        validate_json_request_dispatch ["name", "date"] loadsW
            (postBody "\x7b\"name\":\"a\"\x7d") =
          VjrOutcome.response (JsonResponseBadRequest (PyVal.str
            ("POST JSON must contain property '" ++ k ++ "'"))) ∧
        (JsonResponseBadRequest (PyVal.str
          ("POST JSON must contain property '" ++ k ++ "'"))).status_code
          = 400) ∧
      validate_json_request_dispatch ["name", "date"] loadsW
          (postBody "\x7b\"name\":\"a\"\x7d") =
        VjrOutcome.response (JsonResponseBadRequest (PyVal.str
          "POST JSON must contain property 'date'"))) ∧
    validate_json_request ["name", "date"] loadsW
        (fun _ _ => HandlerResponse.http 200)
        (postBody "\x7b\"name\":\"a\",\"date\":\"d\"\x7d") =
      some (HandlerResponse.http 200) :=
  ⟨⟨rfl,
    ((validate_json_request_policy ["name", "date"] loadsW
      (fun _ _ => HandlerResponse.http 200) (postBody "x")).1
      "No JSON object could be decoded" rfl).1⟩,
   ⟨rfl,
    (validate_json_request_policy ["name", "date"] loadsW
      (fun _ _ => HandlerResponse.http 200)
      (postBody "\x7b\"name\":\"a\"\x7d")).2.1
      [("name", Jv.str "a")] rfl ⟨"date", by simp, rfl⟩,
    rfl⟩,
   (validate_json_request_policy ["name", "date"] loadsW
      (fun _ _ => HandlerResponse.http 200)
      (postBody "\x7b\"name\":\"a\",\"date\":\"d\"\x7d")).2.2
      [("name", Jv.str "a"), ("date", Jv.str "d")] rfl
      (by
        intro k hk
        simp only [List.mem_cons, List.not_mem_nil, or_false] at hk
        rcases hk with rfl | rfl <;> rfl)⟩

theorem json_response_with_status_body_witness :
    (pyTruthy (PyVal.str "forbidden") = true ∧
      pyTruthy (PyVal.dict [("x", PyVal.str "bad")]) = true ∧
      lookupStr
        (dictEntries (JsonResponseWithStatus_data 403 (PyVal.str "oops")
          (PyVal.str "forbidden") (PyVal.dict [("x", PyVal.str "bad")])))
        "error_message" = some (PyVal.str "oops") ∧
      lookupStr
        (dictEntries (JsonResponseWithStatus_data 403 (PyVal.str "oops")
          (PyVal.str "forbidden") (PyVal.dict [("x", PyVal.str "bad")])))
        "error_type" = some (PyVal.str "forbidden") ∧
      lookupStr
        (dictEntries (JsonResponseWithStatus_data 403 (PyVal.str "oops")
          (PyVal.str "forbidden") (PyVal.dict [("x", PyVal.str "bad")])))
        "field_errors" = some (PyVal.dict [("x", PyVal.str "bad")])) ∧
    (pyTruthy PyVal.none = false ∧
      lookupStr
        (dictEntries (JsonResponseWithStatus_data 403 (PyVal.str "oops")
          PyVal.none PyVal.none))
        "error_type" = some (PyVal.int 403) ∧
      lookupStr
        (dictEntries (JsonResponseWithStatus_data 403 (PyVal.str "oops")
          PyVal.none PyVal.none))
        "field_errors" = Option.none) :=
  ⟨⟨rfl, rfl,
    (json_response_with_status_body 403 "oops" (PyVal.str "forbidden")
      (PyVal.dict [("x", PyVal.str "bad")])).2.1,
    (json_response_with_status_body 403 "oops" (PyVal.str "forbidden")
      (PyVal.dict [("x", PyVal.str "bad")])).2.2.1 rfl,
    (json_response_with_status_body 403 "oops" (PyVal.str "forbidden")
      (PyVal.dict [("x", PyVal.str "bad")])).2.2.2.2.1 rfl⟩,
   ⟨rfl,
    (json_response_with_status_body 403 "oops" PyVal.none
      PyVal.none).2.2.2.1 rfl,
    (json_response_with_status_body 403 "oops" PyVal.none
      PyVal.none).2.2.2.2.2 rfl⟩⟩
